import Mathlib

/-!
Shallow embedding of `src/xiaomi_parser.py` from the mi_remote_database
repository: JSON values, the tree walker `load_brand_codes`, the pattern
builder `build_patterns`, and the directory driver `load_brand_codes_from_dir`.
Python exceptions are modelled by `Except PyErr`; Python dicts are modelled by
ordered association lists (insertion order preserved, as in CPython).
File reading and JSON text parsing are I/O glue: each embedded function takes
the already parsed JSON value of its document.
-/

namespace MiRemote

/-- JSON values as produced by `json.loads`; objects keep insertion order. -/
inductive Json : Type where
  | null : Json
  | bool : Bool → Json
  | num : Int → Json
  | str : String → Json
  | arr : List Json → Json
  | obj : List (String × Json) → Json

/-- Python exceptions raised by the embedded code. -/
inductive PyErr : Type where
  | keyError : String → PyErr
  | typeError : PyErr
  | attributeError : PyErr
  | assertionError : PyErr
  | decodeError : PyErr
deriving DecidableEq

/-- First binding of a key in an ordered association list (dict lookup). -/
def lookupKV : List (String × Json) → String → Option Json
  | [], _ => none
  | (k, v) :: rest, key => if k = key then some v else lookupKV rest key

/-- Python `d.get(k)`: the value when `j` is an object holding key `k`,
otherwise `none`. -/
def Json.get? : Json → String → Option Json
  | .obj kvs, k => lookupKV kvs k
  | _, _ => none

/-- Python `k in d`. -/
def Json.contains (j : Json) (k : String) : Bool := (j.get? k).isSome

/-- Python `x is None`. -/
def Json.isNull : Json → Bool
  | .null => true
  | _ => false

/-- Python truthiness of a parsed JSON value. -/
def Json.truthy : Json → Bool
  | .null => false
  | .bool b => b
  | .num n => n != 0
  | .str s => s != ""
  | .arr xs => !xs.isEmpty
  | .obj kvs => !kvs.isEmpty

/-- Python subscript `d[k]`: `KeyError` when the key is missing, `TypeError`
when the subscripted value is not a dict. -/
def getItem (j : Json) (k : String) : Except PyErr Json :=
  match j with
  | .obj kvs =>
    match lookupKV kvs k with
    | some v => Except.ok v
    | none => Except.error (PyErr.keyError k)
  | _ => Except.error PyErr.typeError

/-- Iterating a JSON value as a Python list. -/
def asList : Json → Except PyErr (List Json)
  | .arr xs => Except.ok xs
  | _ => Except.error PyErr.typeError

/-- Python `d.items()` on a parsed JSON value. -/
def items : Json → Except PyErr (List (String × Json))
  | .obj kvs => Except.ok kvs
  | _ => Except.error PyErr.attributeError

/-- Modelled from the spec: `process_xiaomi_shit` lives in
`src/crypt_utils.py`, which is not among the provided sources. Section 4.2 of
the spec fixes only its contract: deterministic, pure, and failing with a
`DecodeError` (never a silent empty result) when the blob is not validly
encoded. We model a blob as validly encoded exactly when it is a non-empty
string, and its decrypted payload as the byte values of that string. -/
def process_xiaomi_shit : Json → Except PyErr (List Nat)
  | .str s => if s = "" then Except.error PyErr.decodeError else Except.ok (s.toList.map Char.toNat)
  | _ => Except.error PyErr.decodeError

/-- Modelled from the spec: the `Pattern` class lives in `src/pattern.py`,
which is not among the provided sources. Section 3 of the spec describes it as
an immutable record of the decrypted timing payload, the carrier frequency and
the identifiers; the constructor call sites in `xiaomi_parser.py` pass
`(ir_code, frequency, model_id=..., vendor_id=..., id=...)`, so the
constructor is modelled as storing those five arguments. -/
structure Pattern : Type where
  ir_code : List Nat
  frequency : Json
  model_id : Json
  vendor_id : Json
  id : Json

/-- Lines 368 to 370 of `build_patterns`: `button_name = model.get("id", None)`
followed by `button_name = button_name + "_r"` when it is not `None`; string
concatenation with a non-string non-null value raises `TypeError`. -/
def appendR : Json → Except PyErr Json
  | .null => Except.ok Json.null
  | .str s => Except.ok (Json.str (s ++ "_r"))
  | _ => Except.error PyErr.typeError

/-- `build_patterns(models)` of `xiaomi_parser.py` (lines 333 to 381): for each
model dict, read `model["frequency"]`; skip the model when the frequency is
falsy (the `if not frequency: continue` branch, which also logs); otherwise
decrypt `model["ir_zip_key"]`, build a `Pattern`, and when `"ir_zip_key_r" in
model` decrypt it and build a second `Pattern` whose id is the primary id with
`"_r"` appended. An exception anywhere propagates out of the whole call. -/
def build_patterns : List Json → Except PyErr (List Pattern)
  | [] => pure []
  | model :: rest => do
    let frequency ← getItem model "frequency"
    if frequency.truthy = false then
      build_patterns rest
    else do
      let zipKey ← getItem model "ir_zip_key"
      let ir_code ← process_xiaomi_shit zipKey
      let model_id := (model.get? "_id").getD ((model.get? "keysetids").getD Json.null)
      let vendor_id := (model.get? "source").getD (Json.str "mi")
      let button_id := (model.get? "id").getD Json.null
      let pattern : Pattern := ⟨ir_code, frequency, model_id, vendor_id, button_id⟩
      if model.contains "ir_zip_key_r" = true then do
        let zipKeyR ← getItem model "ir_zip_key_r"
        let ir_code_r ← process_xiaomi_shit zipKeyR
        let button_name ← appendR button_id
        let pattern_r : Pattern := ⟨ir_code_r, frequency, model_id, vendor_id, button_name⟩
        let tail ← build_patterns rest
        pure (pattern :: pattern_r :: tail)
      else do
        let tail ← build_patterns rest
        pure (pattern :: tail)

/-- The list comprehension inside `parse_others_section` (lines 282 to 289):
one button dict per `(name, ircode)` pair of `json_model["key"].items()`, each
re-reading `json_model["frequency"]`. -/
def buttonsOf (json_model : Json) : List (String × Json) → Except PyErr (List Json)
  | [] => pure []
  | (name, ircode) :: rest => do
    let freq ← getItem json_model "frequency"
    let bs ← buttonsOf json_model rest
    pure (Json.obj [("id", Json.str name), ("ir_zip_key", ircode), ("frequency", freq)] :: bs)

/-- `parse_others_section` (lines 280 to 291) fused with its consumer loop in
`load_brand_codes` (lines 296 to 302): for each entry of the `others` list,
build the button dicts from `json_model["key"].items()`, then append one model
dict `{"buttons": buttons, "source": json_model["source"]}`. -/
def parse_others_section : List Json → Except PyErr (List Json)
  | [] => pure []
  | json_model :: rest => do
    let keyMap ← getItem json_model "key"
    let pairs ← items keyMap
    let buttons ← buttonsOf json_model pairs
    let source ← getItem json_model "source"
    let ms ← parse_others_section rest
    pure (Json.obj [("buttons", Json.arr buttons), ("source", source)] :: ms)

/-- Lines 296 to 302 of `load_brand_codes`: the `others` section is processed
only when `"others" in json_filedata["data"]`. -/
def othersModels (data : Json) : Except PyErr (List Json) :=
  if data.contains "others" = true then do
    let others ← getItem data "others"
    let sec ← asList others
    parse_others_section sec
  else pure []

/-- The `for json_model in json_models` loop of `load_brand_codes` (lines 314
to 329): skip nodes without `"ir_zip_key"`; otherwise build the button dict
from `keyid`, `ir_zip_key` and `frequency`, attach `ir_zip_key_r` only when
`json_model.get("ir_zip_key_r")` is truthy, and append one model dict
`{"buttons": [button], "keysetids": json_model["keysetids"]}`. -/
def treeNodesLoop : List Json → Except PyErr (List Json)
  | [] => pure []
  | json_model :: rest =>
    if json_model.contains "ir_zip_key" = false then
      treeNodesLoop rest
    else do
      let keyid ← getItem json_model "keyid"
      let zipKey ← getItem json_model "ir_zip_key"
      let freq ← getItem json_model "frequency"
      let reverse_code := (json_model.get? "ir_zip_key_r").getD Json.null
      let button : Json :=
        if reverse_code.truthy = true then
          Json.obj [("id", keyid), ("ir_zip_key", zipKey), ("frequency", freq),
                    ("ir_zip_key_r", reverse_code)]
        else
          Json.obj [("id", keyid), ("ir_zip_key", zipKey), ("frequency", freq)]
      let keysetids ← getItem json_model "keysetids"
      let ms ← treeNodesLoop rest
      pure (Json.obj [("buttons", Json.arr [button]), ("keysetids", keysetids)] :: ms)

/-- `load_brand_codes(filename)` (lines 171 to 330), applied to the parsed JSON
document: read `json_filedata["data"]`, process the optional `others` section,
then read `data["tree"]`; return the accumulated models when the tree lacks
`"seceret_key"`; otherwise `assert tree["seceret_key"] is None` and walk
`tree["nodes"]`. -/
def load_brand_codes (doc : Json) : Except PyErr (List Json) := do
  let data ← getItem doc "data"
  let models ← othersModels data
  let tree ← getItem data "tree"
  if tree.contains "seceret_key" = false then
    pure models
  else do
    let secret ← getItem tree "seceret_key"
    if secret.isNull = false then
      Except.error PyErr.assertionError
    else do
      let nodesJson ← getItem tree "nodes"
      let json_models ← asList nodesJson
      let treeModels ← treeNodesLoop json_models
      pure (models ++ treeModels)

/-- `load_brand_codes_from_dir(directory)` (lines 384 to 404), with the globbed
directory given as the list of (file stem, parsed document) pairs: build the
dict mapping each stem to `load_brand_codes` of its document. The running
total is printed, not returned; an exception from any document propagates. -/
def load_brand_codes_from_dir : List (String × Json) → Except PyErr (List (String × List Json))
  | [] => pure []
  | (stem, doc) :: rest => do
    let temp_models ← load_brand_codes doc
    let ms ← load_brand_codes_from_dir rest
    pure ((stem, temp_models) :: ms)

/-! ### Concrete documents used by counterexamples and witnesses -/

/-- A tree node carrying a blob, as in the docstring example of
`load_brand_codes` (keyid power, frequency 37990). -/
def goodNode : Json :=
  Json.obj [("ir_zip_key", Json.str "ZIP1"), ("keysetids", Json.arr [Json.str "xm_1_199"]),
            ("frequency", Json.num 37990), ("keyid", Json.str "power")]

/-- A structural node without a blob (the root node shape). -/
def nodeNoZip : Json :=
  Json.obj [("children_index", Json.arr []), ("frequency", Json.num 0), ("index", Json.num 0)]

/-- A brand document whose tree holds a null `seceret_key` and one blob node. -/
def exTreeDoc : Json :=
  Json.obj [("data", Json.obj [("tree",
    Json.obj [("seceret_key", Json.null), ("nodes", Json.arr [goodNode])])])]

/-- The model dict that `load_brand_codes` builds from `goodNode`. -/
def exTreeModel : Json :=
  Json.obj [("buttons", Json.arr [Json.obj [("id", Json.str "power"),
            ("ir_zip_key", Json.str "ZIP1"), ("frequency", Json.num 37990)]]),
            ("keysetids", Json.arr [Json.str "xm_1_199"])]

/-- An `others` entry with a single-key button map. -/
def exOther : Json :=
  Json.obj [("_id", Json.str "kk_1_64_3445"), ("key", Json.obj [("power", Json.str "B2")]),
            ("frequency", Json.num 38000), ("seceret_key", Json.null), ("source", Json.str "kk")]

/-- The data section of a document holding `others` but no `tree`. -/
def exNoTreeData : Json := Json.obj [("others", Json.arr [exOther])]

/-- A brand document holding `others` but no `tree`. -/
def exNoTreeDoc : Json := Json.obj [("data", exNoTreeData)]

/-- The model dict that the `others` loop builds from `exOther`. -/
def exOtherModel : Json :=
  Json.obj [("buttons", Json.arr [Json.obj [("id", Json.str "power"),
            ("ir_zip_key", Json.str "B2"), ("frequency", Json.num 38000)]]),
            ("source", Json.str "kk")]

/-- An `others` entry whose button map has two keys, as in the spec scenario. -/
def twoKeyOther : Json :=
  Json.obj [("_id", Json.str "kk_1_64_3445"),
            ("key", Json.obj [("vol+", Json.str "B1"), ("power", Json.str "B2")]),
            ("frequency", Json.num 38000), ("source", Json.str "kk")]

/-- A brand document with the two-key `others` entry and an empty tree dict. -/
def exOthersDoc : Json :=
  Json.obj [("data", Json.obj [("others", Json.arr [twoKeyOther]), ("tree", Json.obj [])])]

/-- The single model dict built from `twoKeyOther`: two buttons, one model. -/
def exOthersModel : Json :=
  Json.obj [("buttons", Json.arr
    [Json.obj [("id", Json.str "vol+"), ("ir_zip_key", Json.str "B1"), ("frequency", Json.num 38000)],
     Json.obj [("id", Json.str "power"), ("ir_zip_key", Json.str "B2"), ("frequency", Json.num 38000)]]),
   ("source", Json.str "kk")]

/-- A flat model dict whose primary blob is not validly encoded. -/
def badBlobModel : Json :=
  Json.obj [("frequency", Json.num 38000), ("ir_zip_key", Json.str "")]

/-- A flat model dict with a valid blob and a button name. -/
def goodFlatModel : Json :=
  Json.obj [("frequency", Json.num 38000), ("ir_zip_key", Json.str "OK"), ("id", Json.str "power")]

/-- A flat model dict with a valid primary blob and an invalid reverse blob. -/
def badReverseModel : Json :=
  Json.obj [("frequency", Json.num 38000), ("ir_zip_key", Json.str "OK"),
            ("id", Json.str "power"), ("ir_zip_key_r", Json.str "")]

/-- A flat model dict with a negative frequency. -/
def negFreqModel : Json :=
  Json.obj [("frequency", Json.num (-1)), ("ir_zip_key", Json.str "OK")]

/-- A flat model dict carrying both a primary and a reverse blob. -/
def revModel : Json :=
  Json.obj [("frequency", Json.num 37000), ("ir_zip_key", Json.str "AB"),
            ("ir_zip_key_r", Json.str "CD"), ("id", Json.str "power")]

/-- A document without the top level `data` key. -/
def noDataDoc : Json := Json.obj [("status", Json.num 0)]

/-- A brand document whose tree carries a non-null `seceret_key`. -/
def secretKeyDoc : Json :=
  Json.obj [("data", Json.obj [("tree",
    Json.obj [("seceret_key", Json.str "S"), ("nodes", Json.arr [])])])]

/-! ### Helper lemmas about the exception monad and dict access -/

theorem ok_bind {α β : Type} (a : α) (f : α → Except PyErr β) :
    (Except.ok a : Except PyErr α) >>= f = f a := rfl

theorem error_bind {α β : Type} (e : PyErr) (f : α → Except PyErr β) :
    (Except.error e : Except PyErr α) >>= f = Except.error e := rfl

theorem pure_ok {α : Type} (a : α) : (pure a : Except PyErr α) = Except.ok a := rfl

theorem get?_eq_of_getItem {j : Json} {k : String} {v : Json}
    (h : getItem j k = Except.ok v) : j.get? k = some v := by
  cases j with
  | obj kvs =>
      simp only [getItem] at h
      simp only [Json.get?]
      cases hlk : lookupKV kvs k with
      | some w => rw [hlk] at h; cases h; rfl
      | none => rw [hlk] at h; cases h
  | null => cases h
  | bool b => cases h
  | num n => cases h
  | str s => cases h
  | arr xs => cases h

theorem contains_of_getItem {j : Json} {k : String} {v : Json}
    (h : getItem j k = Except.ok v) : j.contains k = true := by
  rw [Json.contains, get?_eq_of_getItem h]; rfl

/-- Shared helper: when `json_model["frequency"]` reads back a value `f`, the
button comprehension of `parse_others_section` maps each `(name, ircode)` pair
to its button dict. -/
theorem buttonsOf_freq (json_model : Json) (f : Json)
    (hf : getItem json_model "frequency" = Except.ok f) :
    ∀ kvs : List (String × Json),
      buttonsOf json_model kvs = Except.ok (kvs.map fun p =>
        Json.obj [("id", Json.str p.1), ("ir_zip_key", p.2), ("frequency", f)])
  | [] => rfl
  | (name, ircode) :: rest => by
      simp [buttonsOf, hf, ok_bind, buttonsOf_freq json_model f hf rest, pure_ok]

/-! ### Claim theorems -/

/-- C1 (code bug, evaluated at the failing input): `load_brand_codes` returns
a non-empty model list for a well-formed tree document, yet `build_patterns`
applied to exactly that list raises `KeyError("frequency")`: the walker wraps
each model as `{"buttons": [...], "keysetids": ...}` while the builder reads
`model["frequency"]` and `model["ir_zip_key"]` at top level, although its
docstring says its argument is the value returned by `load_brand_codes`. -/
theorem c1_walker_output_breaks_builder :
    load_brand_codes exTreeDoc = Except.ok [exTreeModel] ∧
    [exTreeModel] ≠ ([] : List Json) ∧
    build_patterns [exTreeModel] = Except.error (PyErr.keyError "frequency") :=
  ⟨rfl, by simp, rfl⟩

/-- C2 (counterexample): a brand document whose data holds an `others` section
but no `tree` entry makes `load_brand_codes` raise `KeyError("tree")` at line
306, instead of returning the one model already produced from `others`. -/
theorem c2_absent_tree_raises :
    load_brand_codes exNoTreeDoc = Except.error (PyErr.keyError "tree") ∧
    othersModels exNoTreeData = Except.ok [exOtherModel] :=
  ⟨rfl, rfl⟩

/-- C2 (amended): when the parsed data does hold a `tree` entry but that tree
lacks the `seceret_key` field, `load_brand_codes` returns exactly the models
already produced from the `others` section, without raising. -/
theorem c2_tree_without_marker_returns_others (doc data tree : Json) (ms : List Json)
    (hdata : getItem doc "data" = Except.ok data)
    (hothers : othersModels data = Except.ok ms)
    (htree : getItem data "tree" = Except.ok tree)
    (hsk : tree.contains "seceret_key" = false) :
    load_brand_codes doc = Except.ok ms := by
  simp [load_brand_codes, hdata, hothers, htree, hsk, ok_bind, pure_ok]

/-- C2 (witness): a document whose tree is the empty dict parses to the empty
model list. -/
theorem c2_witness :
    load_brand_codes (Json.obj [("data", Json.obj [("tree", Json.obj [])])]) = Except.ok [] :=
  c2_tree_without_marker_returns_others
    (Json.obj [("data", Json.obj [("tree", Json.obj [])])])
    (Json.obj [("tree", Json.obj [])]) (Json.obj []) [] rfl rfl rfl rfl

/-- C3 (counterexample): a decode failure on the primary blob of the first
model aborts the whole `build_patterns` call (the following valid model is
never processed), and a decode failure on the reverse blob alone also aborts
the call, discarding the primary Pattern. -/
theorem c3_decode_error_not_isolated :
    build_patterns [badBlobModel, goodFlatModel] = Except.error PyErr.decodeError ∧
    build_patterns [badReverseModel] = Except.error PyErr.decodeError :=
  ⟨rfl, rfl⟩

/-- C3 (amended): `build_patterns` has no exception handler, so a decode
failure on the primary blob of a model propagates out of the whole call, and
so does a decode failure on the reverse blob after a successful primary
decode. -/
theorem c3_decode_error_aborts (model : Json) (rest : List Json) (f zip : Json) (e : PyErr)
    (hf : getItem model "frequency" = Except.ok f) (ht : f.truthy = true)
    (hz : getItem model "ir_zip_key" = Except.ok zip) :
    (process_xiaomi_shit zip = Except.error e → build_patterns (model :: rest) = Except.error e) ∧
    (∀ code zipR, process_xiaomi_shit zip = Except.ok code →
      getItem model "ir_zip_key_r" = Except.ok zipR →
      process_xiaomi_shit zipR = Except.error e →
      build_patterns (model :: rest) = Except.error e) := by
  constructor
  · intro hd
    simp [build_patterns, hf, ht, hz, hd, ok_bind, error_bind]
  · intro code zipR hc hzr hdr
    have hcont := contains_of_getItem hzr
    simp [build_patterns, hf, ht, hz, hc, hcont, hzr, hdr, ok_bind, error_bind]

/-- C3 (witness): both propagation modes at concrete inputs. -/
theorem c3_witness :
    build_patterns [badBlobModel] = Except.error PyErr.decodeError ∧
    build_patterns [badReverseModel] = Except.error PyErr.decodeError :=
  ⟨(c3_decode_error_aborts badBlobModel [] (Json.num 38000) (Json.str "")
      PyErr.decodeError rfl rfl rfl).1 rfl,
   (c3_decode_error_aborts badReverseModel [] (Json.num 38000) (Json.str "OK")
      PyErr.decodeError rfl rfl rfl).2 [79, 75] (Json.str "") rfl rfl rfl⟩

/-- C4 (counterexample): a model with frequency -1 is not rejected: the
`if not frequency` test only catches falsy values, so `build_patterns` emits
one Pattern carrying the negative frequency instead of zero Patterns. -/
theorem c4_negative_frequency_not_skipped :
    build_patterns [negFreqModel] =
      Except.ok [⟨[79, 75], Json.num (-1), Json.null, Json.str "mi", Json.null⟩] ∧
    ([(⟨[79, 75], Json.num (-1), Json.null, Json.str "mi", Json.null⟩ : Pattern)]).length = 1 :=
  ⟨rfl, rfl⟩

/-- C4 (amended): `build_patterns` emits zero Patterns and continues with the
rest of the batch exactly for models whose frequency value is falsy (zero,
null, false, or an empty collection); negative frequencies pass the test. -/
theorem c4_falsy_frequency_skipped (model : Json) (rest : List Json) (f : Json)
    (hf : getItem model "frequency" = Except.ok f) (ht : f.truthy = false) :
    build_patterns (model :: rest) = build_patterns rest := by
  simp [build_patterns, hf, ht, ok_bind]

/-- C4 (witness): a zero-frequency model contributes nothing. -/
theorem c4_witness :
    build_patterns [Json.obj [("frequency", Json.num 0)]] = build_patterns [] :=
  c4_falsy_frequency_skipped (Json.obj [("frequency", Json.num 0)]) [] (Json.num 0) rfl rfl

/-- C5 (counterexample): an `others` entry with the two-key button map of the
spec scenario yields ONE model dict (holding two buttons), not two, and the
entry identifier `_id` is not retained anywhere on it. -/
theorem c5_two_key_entry_one_model :
    load_brand_codes exOthersDoc = Except.ok [exOthersModel] ∧
    ¬ ([exOthersModel].length = 2) ∧
    exOthersModel.contains "_id" = false :=
  ⟨rfl, by decide, rfl⟩

/-- C5 (amended): for each `others` entry, the parse emits exactly one model
dict whose `buttons` list holds one button dict per `(name, blob)` pair of the
button map, each carrying the entry frequency, plus the `source` tag; the
entry `_id` is dropped. -/
theorem c5_one_model_per_other_entry (json_model : Json) (rest : List Json)
    (kvs : List (String × Json)) (f s : Json)
    (hkey : getItem json_model "key" = Except.ok (Json.obj kvs))
    (hf : getItem json_model "frequency" = Except.ok f)
    (hs : getItem json_model "source" = Except.ok s) :
    parse_others_section (json_model :: rest) =
      Except.map (fun ms =>
        Json.obj [("buttons", Json.arr (kvs.map fun p =>
          Json.obj [("id", Json.str p.1), ("ir_zip_key", p.2), ("frequency", f)])),
          ("source", s)] :: ms) (parse_others_section rest) := by
  have hb := buttonsOf_freq json_model f hf kvs
  cases hrest : parse_others_section rest with
  | ok ms =>
      simp [parse_others_section, hkey, items, hb, hs, hrest, ok_bind, pure_ok, Except.map]
  | error e =>
      simp [parse_others_section, hkey, items, hb, hs, hrest, ok_bind, error_bind, Except.map]

/-- C5 (witness): the two-key entry evaluated through the amended statement. -/
theorem c5_witness :
    parse_others_section [twoKeyOther] = Except.ok [exOthersModel] :=
  (c5_one_model_per_other_entry twoKeyOther []
    [("vol+", Json.str "B1"), ("power", Json.str "B2")]
    (Json.num 38000) (Json.str "kk") rfl rfl rfl).trans rfl

/-- C6 (counterexample): a directory whose first document lacks the top level
`data` key makes the whole `load_brand_codes_from_dir` call raise
`KeyError("data")`, even though the second document on its own parses fine:
the batch does not continue with the next document. -/
theorem c6_batch_does_not_continue :
    load_brand_codes_from_dir [("bad", noDataDoc), ("good", exTreeDoc)] =
      Except.error (PyErr.keyError "data") ∧
    load_brand_codes exTreeDoc = Except.ok [exTreeModel] :=
  ⟨rfl, rfl⟩

/-- C6 (amended): a document missing the top level `data` key fails fast with
`KeyError("data")` (the MalformedDocument condition), and since
`load_brand_codes_from_dir` has no exception handler this error propagates and
aborts the whole batch rather than continuing with the remaining documents. -/
theorem c6_missing_data_aborts_batch (doc : Json) (stem : String) (rest : List (String × Json))
    (h : getItem doc "data" = Except.error (PyErr.keyError "data")) :
    load_brand_codes doc = Except.error (PyErr.keyError "data") ∧
    load_brand_codes_from_dir ((stem, doc) :: rest) = Except.error (PyErr.keyError "data") := by
  have h1 : load_brand_codes doc = Except.error (PyErr.keyError "data") := by
    simp [load_brand_codes, h, error_bind]
  exact ⟨h1, by simp [load_brand_codes_from_dir, h1, error_bind]⟩

/-- C6 (witness): the malformed document at the head of a batch. -/
theorem c6_witness :
    load_brand_codes noDataDoc = Except.error (PyErr.keyError "data") ∧
    load_brand_codes_from_dir [("bad", noDataDoc)] = Except.error (PyErr.keyError "data") :=
  c6_missing_data_aborts_batch noDataDoc "bad" [] rfl

/-- C7 (counterexample): the value stored under a document stem is the raw
model-dict list of `load_brand_codes`, still carrying the encrypted
`ir_zip_key` blob: it is not a sequence of Pattern objects, and applying the
Pattern builder to it even fails; no aggregate count is part of the returned
value (the total is only printed). -/
theorem c7_values_are_model_dicts :
    load_brand_codes_from_dir [("brand64", exTreeDoc)] =
      Except.ok [("brand64", [exTreeModel])] ∧
    getItem exTreeModel "buttons" =
      Except.ok (Json.arr [Json.obj [("id", Json.str "power"),
        ("ir_zip_key", Json.str "ZIP1"), ("frequency", Json.num 37990)]]) ∧
    build_patterns [exTreeModel] = Except.error (PyErr.keyError "frequency") :=
  ⟨rfl, rfl, rfl⟩

/-- C7 (amended): `load_brand_codes_from_dir` returns a mapping whose keys are
the document file stems and whose values are the model-dict lists returned by
`load_brand_codes` for each document (encrypted code definitions, not
Patterns); the aggregate count is printed, not returned. -/
theorem c7_dir_maps_stem_to_models (stem : String) (doc : Json)
    (rest : List (String × Json)) (ms : List Json) (tail : List (String × List Json))
    (h1 : load_brand_codes doc = Except.ok ms)
    (h2 : load_brand_codes_from_dir rest = Except.ok tail) :
    load_brand_codes_from_dir ((stem, doc) :: rest) = Except.ok ((stem, ms) :: tail) := by
  simp [load_brand_codes_from_dir, h1, h2, ok_bind, pure_ok]

/-- C7 (witness): one-document directory. -/
theorem c7_witness :
    load_brand_codes_from_dir [("brand64", exTreeDoc)] =
      Except.ok [("brand64", [exTreeModel])] :=
  c7_dir_maps_stem_to_models "brand64" exTreeDoc [] [exTreeModel] [] rfl rfl

/-- C8 (confirmed): a model carrying both blobs, a positive numeric frequency
and two successful decrypts yields exactly two Patterns, primary first, the
second with button id equal to the primary name with `_r` appended, or null
when the primary name is absent. -/
theorem c8_reverse_blob_two_patterns (model : Json) (rest : List Json)
    (n : Int) (zip zipR pid pname : Json) (code codeR : List Nat)
    (hf : getItem model "frequency" = Except.ok (Json.num n)) (hn : 0 < n)
    (hz : getItem model "ir_zip_key" = Except.ok zip)
    (hc : process_xiaomi_shit zip = Except.ok code)
    (hzr : getItem model "ir_zip_key_r" = Except.ok zipR)
    (hcr : process_xiaomi_shit zipR = Except.ok codeR)
    (hid : (model.get? "id").getD Json.null = pid)
    (hname : (pid = Json.null ∧ pname = Json.null) ∨
             (∃ s, pid = Json.str s ∧ pname = Json.str (s ++ "_r"))) :
    build_patterns (model :: rest) =
      Except.map (fun tail =>
        (⟨code, Json.num n, (model.get? "_id").getD ((model.get? "keysetids").getD Json.null),
          (model.get? "source").getD (Json.str "mi"), pid⟩ : Pattern) ::
        (⟨codeR, Json.num n, (model.get? "_id").getD ((model.get? "keysetids").getD Json.null),
          (model.get? "source").getD (Json.str "mi"), pname⟩ : Pattern) :: tail)
        (build_patterns rest) := by
  have htr : (Json.num n).truthy = true := by
    simp [Json.truthy]; omega
  have hcont := contains_of_getItem hzr
  have happ : appendR pid = Except.ok pname := by
    rcases hname with ⟨h1, h2⟩ | ⟨s, h1, h2⟩ <;> subst h1 <;> subst h2 <;> rfl
  cases hrest : build_patterns rest with
  | ok tail =>
      simp [build_patterns, hf, htr, hz, hc, hcont, hzr, hcr, hid, happ, hrest,
            ok_bind, pure_ok, Except.map]
  | error e =>
      simp [build_patterns, hf, htr, hz, hc, hcont, hzr, hcr, hid, happ, hrest,
            ok_bind, error_bind, Except.map]

/-- C8 (witness): a concrete model with both blobs yields the two Patterns in
order, the second one named `power_r`. -/
theorem c8_witness :
    (0 : Int) < 37000 ∧
    build_patterns [revModel] =
      Except.ok [⟨[65, 66], Json.num 37000, Json.null, Json.str "mi", Json.str "power"⟩,
                 ⟨[67, 68], Json.num 37000, Json.null, Json.str "mi", Json.str "power_r"⟩] :=
  ⟨by decide,
   (c8_reverse_blob_two_patterns revModel [] 37000 (Json.str "AB") (Json.str "CD")
      (Json.str "power") (Json.str "power_r") [65, 66] [67, 68]
      rfl (by decide) rfl rfl rfl rfl rfl
      (Or.inr ⟨"power", rfl, rfl⟩)).trans rfl⟩

/-- C9 (confirmed): the tree-node loop skips every node lacking the blob field
`ir_zip_key`, and for each node that carries one (with its `keyid`,
`frequency` and `keysetids` fields readable) it emits exactly one model dict,
before the models of the remaining nodes, whose single button carries the node
keyid as name, the node code as blob, the node frequency, and a reverse blob
exactly when `json_model.get("ir_zip_key_r")` is truthy (present, non-null and
non-empty). -/
theorem c9_tree_nodes (json_model : Json) (rest : List Json) :
    (json_model.contains "ir_zip_key" = false →
      treeNodesLoop (json_model :: rest) = treeNodesLoop rest) ∧
    (∀ keyid zip f ks,
      getItem json_model "keyid" = Except.ok keyid →
      getItem json_model "ir_zip_key" = Except.ok zip →
      getItem json_model "frequency" = Except.ok f →
      getItem json_model "keysetids" = Except.ok ks →
      treeNodesLoop (json_model :: rest) =
        Except.map (fun ms =>
          Json.obj [("buttons", Json.arr
            [if ((json_model.get? "ir_zip_key_r").getD Json.null).truthy = true then
               Json.obj [("id", keyid), ("ir_zip_key", zip), ("frequency", f),
                         ("ir_zip_key_r", (json_model.get? "ir_zip_key_r").getD Json.null)]
             else Json.obj [("id", keyid), ("ir_zip_key", zip), ("frequency", f)]]),
           ("keysetids", ks)] :: ms) (treeNodesLoop rest)) := by
  constructor
  · intro h
    simp [treeNodesLoop, h]
  · intro keyid zip f ks hk hz hf hks
    have hcont := contains_of_getItem hz
    cases hrest : treeNodesLoop rest with
    | ok ms =>
        simp [treeNodesLoop, hcont, hk, hz, hf, hks, hrest, ok_bind, pure_ok, Except.map]
    | error e =>
        simp [treeNodesLoop, hcont, hk, hz, hf, hks, hrest, ok_bind, error_bind, Except.map]

/-- C9 (witness): a structural node contributes nothing and a blob node yields
its one model dict. -/
theorem c9_witness :
    treeNodesLoop [nodeNoZip] = treeNodesLoop [] ∧
    treeNodesLoop [goodNode] = Except.ok [exTreeModel] :=
  ⟨(c9_tree_nodes nodeNoZip []).1 rfl,
   ((c9_tree_nodes goodNode []).2 (Json.str "power") (Json.str "ZIP1") (Json.num 37990)
      (Json.arr [Json.str "xm_1_199"]) rfl rfl rfl rfl).trans rfl⟩

/-- C10 (confirmed): when the tree of a brand document carries a `seceret_key`
field whose value is not null, `load_brand_codes` hits the assertion at line
312 and the whole call fails with `AssertionError`, producing no result for
that document instead of returning the models parsed so far. -/
theorem c10_secret_key_assertion (doc data tree sk : Json) (ms : List Json)
    (hdata : getItem doc "data" = Except.ok data)
    (hothers : othersModels data = Except.ok ms)
    (htree : getItem data "tree" = Except.ok tree)
    (hsk : getItem tree "seceret_key" = Except.ok sk)
    (hnn : sk.isNull = false) :
    load_brand_codes doc = Except.error PyErr.assertionError := by
  have hcont := contains_of_getItem hsk
  simp [load_brand_codes, hdata, hothers, htree, hcont, hsk, hnn, ok_bind]

/-- C10 (witness): a tree whose `seceret_key` is the string S. -/
theorem c10_witness :
    load_brand_codes secretKeyDoc = Except.error PyErr.assertionError :=
  c10_secret_key_assertion secretKeyDoc
    (Json.obj [("tree", Json.obj [("seceret_key", Json.str "S"), ("nodes", Json.arr [])])])
    (Json.obj [("seceret_key", Json.str "S"), ("nodes", Json.arr [])])
    (Json.str "S") [] rfl rfl rfl rfl rfl

end MiRemote
